import Mathlib

/-
Verification development for the NIP-46 SDK client (src/src/class/client.ts).

The TypeScript source is shallowly embedded: pure functions become Lean
functions, the impure clock (now) and message-id generator become explicit
parameters, promise settlement becomes an explicit settle-once state machine,
and the per-call effect sequence of a method becomes an explicit action trace.
Machine integers in the source are plain JavaScript numbers used as
millisecond counts and event kinds; they are modelled as Nat.
-/

namespace NIP46

/-- Subscription filter, from the EventFilter shape used in DEFAULT_CONFIG:
kinds is a list of integer event kinds, since an epoch timestamp. -/
structure EventFilter where
  kinds : List Nat
  since : Nat
deriving DecidableEq

/-- Client configuration, from the ClientConfig shape in client.ts. -/
structure ClientConfig where
  kind         : Nat
  filter       : EventFilter
  req_timeout  : Nat
  since_offset : Nat
  start_delay  : Nat
deriving DecidableEq

/-- Caller-supplied overrides for the filter: every field optional, as in a
TypeScript partial object. A missing field keeps the default. -/
structure FilterOptions where
  kinds : Option (List Nat) := none
  since : Option Nat := none
deriving DecidableEq

/-- Caller-supplied overrides for the configuration (the options argument of
the NostrClient constructor): every field optional. -/
structure ClientOptions where
  kind         : Option Nat := none
  filter       : Option FilterOptions := none
  req_timeout  : Option Nat := none
  since_offset : Option Nat := none
  start_delay  : Option Nat := none
deriving DecidableEq

/-- DEFAULT_CONFIG from client.ts lines 39-50. The impure call now() is made
an explicit parameter now0. -/
def DEFAULT_CONFIG (now0 : Nat) : ClientConfig :=
  { kind         := 24133
    filter       := { kinds := [24133], since := now0 }
    req_timeout  := 5000
    since_offset := 5
    start_delay  := 2000 }

/-- Embedding of the JavaScript object spread on filters, as in
client.ts line 287: fields present in the override replace the base,
a wholly absent override object leaves the base unchanged. -/
def merge_filter (base : EventFilter) (opt : Option FilterOptions) : EventFilter :=
  match opt with
  | none   => base
  | some f => { kinds := f.kinds.getD base.kinds, since := f.since.getD base.since }

/-- get_node_config from client.ts lines 283-289. Note the source returns
spread of config overridden by the merged filter only: the top-level fields of
opt (kind, req_timeout, since_offset, start_delay) are never read. -/
def get_node_config (now0 : Nat) (opt : ClientOptions) : ClientConfig :=
  let config := DEFAULT_CONFIG now0
  let filter := merge_filter config.filter opt.filter
  { config with filter := filter }

/-- get_filter_config from client.ts lines 297-302: spread of the config
filter overridden by the caller filter options. -/
def get_filter_config (cfgFilter : EventFilter) (filter : Option FilterOptions) : EventFilter :=
  merge_filter cfgFilter filter

/-- Outcome of one settled per-relay publish attempt, from
PromiseSettledResult in resolve_receipts: fulfilled carries the value,
rejected carries the reason. -/
inductive SettledResult (α : Type) where
  | fulfilled (value : α)
  | rejected (reason : String)
deriving DecidableEq

/-- Aggregate publish result, from the PublishResponse shape. -/
structure PublishResponse where
  acks  : List String
  fails : List String
  ok    : Bool
deriving DecidableEq

/-- Accumulator loop of resolve_receipts (client.ts lines 307-314): the for
loop pushes fulfilled values onto acks and rejected reasons onto fails, in
input order. -/
def receipts_loop (acks fails : List String) :
    List (SettledResult String) → List String × List String
  | [] => (acks, fails)
  | .fulfilled v :: rest => receipts_loop (acks ++ [v]) fails rest
  | .rejected r :: rest => receipts_loop acks (fails ++ [r]) rest

/-- resolve_receipts from client.ts lines 304-316: aggregates the settled
attempts and sets ok to acks.length greater than zero. -/
def resolve_receipts (settled : List (SettledResult String)) : PublishResponse :=
  let r := receipts_loop [] [] settled
  { acks := r.1, fails := r.2, ok := decide (0 < r.1.length) }

/-- Projection selecting the value of a fulfilled attempt. -/
def fulfilled_value : SettledResult String → Option String
  | .fulfilled v => some v
  | .rejected _ => none

/-- Projection selecting the reason of a rejected attempt. -/
def rejected_reason : SettledResult String → Option String
  | .fulfilled _ => none
  | .rejected r => some r

theorem receipts_loop_eq (l : List (SettledResult String)) (acks fails : List String) :
    receipts_loop acks fails l =
      (acks ++ l.filterMap fulfilled_value, fails ++ l.filterMap rejected_reason) := by
  induction l generalizing acks fails with
  | nil => simp [receipts_loop]
  | cons hd tl ih =>
    cases hd with
    | fulfilled v => simp [receipts_loop, ih, fulfilled_value, rejected_reason]
    | rejected r => simp [receipts_loop, ih, fulfilled_value, rejected_reason]

/-- C4: over any sequence of settled per-relay publish attempts, aggregation
returns the fulfilled values as acks in order, the rejected reasons as fails
in order, and ok exactly when at least one attempt fulfilled; the function is
total, so partial failure never raises. The claim restricts to nonempty relay
sets; this statement covers every list, in particular every nonempty one. -/
theorem C4_publish_aggregation (settled : List (SettledResult String)) :
    (resolve_receipts settled).acks = settled.filterMap fulfilled_value ∧
    (resolve_receipts settled).fails = settled.filterMap rejected_reason ∧
    (resolve_receipts settled).ok
      = decide (0 < (settled.filterMap fulfilled_value).length) := by
  simp [resolve_receipts, receipts_loop_eq]

/-- Discriminator of a decoded message, from parse_message and the type
checks in the handler: request, accept, reject, and any other value. -/
inductive MsgType where
  | request
  | accept
  | reject
  | other
deriving DecidableEq

/-- Decoded inbound message: type discriminator, correlation id, request
method, and the envelope sender pubkey (message.env.pubkey in the source). -/
structure Message where
  type   : MsgType
  id     : String
  method : String
  sender : String
deriving DecidableEq

/-- Outbound message template, from MessageTemplate: all fields optional in
the source shape; id, method and result are the fields the client touches. -/
structure MessageTemplate where
  id     : Option String := none
  method : Option String := none
  result : Option String := none
deriving DecidableEq

/-- Modelled from the spec: the Envelope Codec (lib/message.js, not under src)
produces a signed event of the configured kind, addressed to the recipient,
carrying the serialized payload. The payload is kept structured here instead
of as a JSON string; only its identity matters to the claims. -/
structure SignedEventOut where
  kind      : Nat
  payload   : MessageTemplate
  recipient : String
deriving DecidableEq

/-- Embedding of the JavaScript falsiness test applied to an optional string,
as in the guard at client.ts line 248: absent or empty strings are falsy. -/
def falsy_str : Option String → Bool
  | none => true
  | some s => s == ""

/-- create_event from client.ts lines 226-234. The source mutates the caller
template (message.id is assigned a generated id only when nullish, so an
empty string id is kept); mutation is embedded as returning the updated
template alongside the enveloped event. The generator gen_message_id is the
explicit parameter fresh. -/
def create_event (cfg : ClientConfig) (fresh : String)
    (message : MessageTemplate) (recipient : String) :
    MessageTemplate × SignedEventOut :=
  let message := if message.id = none then { message with id := some fresh } else message
  (message, { kind := cfg.kind, payload := message, recipient := recipient })

/-- Settlement state of a future: pending until resolved or rejected, and a
settled future never changes again (promise settle-once semantics). -/
inductive FutureState (α : Type) where
  | pending
  | resolved (value : α)
  | rejected (reason : String)
deriving DecidableEq

/-- Resolve attempt on a future: only a pending future changes. -/
def settle_resolve {α : Type} (s : FutureState α) (a : α) : FutureState α :=
  match s with
  | .pending => .resolved a
  | s => s

/-- Reject attempt on a future: only a pending future changes. -/
def settle_reject {α : Type} (s : FutureState α) (r : String) : FutureState α :=
  match s with
  | .pending => .rejected r
  | s => s

/-- One emission on the response bus: the millisecond at which it fires and
the response message it carries (the bus key is the message correlation id,
as in client.ts line 149). -/
structure Delivery where
  time : Nat
  msg  : Message
deriving DecidableEq

/-- Modelled from the spec: one step of the race between the pending entry
and its timer, combining the within registration of the Typed Event Bus
(spec section 4.1; the emitter implementation is not under src) with the
promise executor of client.ts lines 251-257. The timer set at registration
rejects with the literal timeout reason once the deadline elapses, so any
delivery at or past the deadline finds the timer already fired; a delivery
matching the key resolves the future, which is a no-op once settled. -/
def pending_step (timeout : Nat) (key : String)
    (s : FutureState Message) (d : Delivery) : FutureState Message :=
  let s := if timeout ≤ d.time then settle_reject s "timeout" else s
  if d.msg.id = key then settle_resolve s d.msg else s

/-- Modelled from the spec: the full life of one pending request entry over a
time-ordered list of response-bus emissions. After all emissions the timer
fires if nothing resolved the future, so the future always settles. -/
def run_pending (timeout : Nat) (key : String) (ds : List Delivery) :
    FutureState Message :=
  settle_reject (ds.foldl (pending_step timeout key) .pending) "timeout"

/-- Externally visible effect of one client method call, in program order:
event creation, response-bus registration, relay publication, relay
subscription. -/
inductive Action where
  | created (ev : SignedEventOut)
  | register (key : String) (timeout : Nat)
  | publish (ev : SignedEventOut)
  | subscribe
deriving DecidableEq

/-- Outcome of a request call: a synchronous throw before any effect, or a
future that settles through the response race. -/
inductive RequestOutcome where
  | thrown (e : String)
  | settled (s : FutureState Message)
deriving DecidableEq

/-- request from client.ts lines 244-260: the guard throws when the template
id is falsy; otherwise the event is created, the within entry is registered
under the template id with the configured req_timeout, and only then the
event is published. The returned future is the race of the registration
against its timer over the response-bus emissions ds. -/
def request_run (cfg : ClientConfig) (fresh : String) (msg : MessageTemplate)
    (recipient : String) (ds : List Delivery) :
    RequestOutcome × List Action :=
  if falsy_str msg.id then (.thrown "message id is required", [])
  else
    let ce := create_event cfg fresh msg recipient
    let key := ce.1.id.getD ""
    (.settled (run_pending cfg.req_timeout key ds),
     [Action.created ce.2, Action.register key cfg.req_timeout, Action.publish ce.2])

/-- ping from client.ts lines 236-242: issues a request with a fresh id and
the reserved method, maps a matched response to the test that its type is
accept, and swallows every rejection into false. The catch clause makes the
result a total Bool, so ping never rejects. -/
def ping_run (cfg : ClientConfig) (fresh : String) (recipient : String)
    (ds : List Delivery) : Bool :=
  match (request_run cfg fresh { id := some fresh, method := some "ping" } recipient ds).1 with
  | .settled (.resolved m) => m.type == MsgType.accept
  | _ => false

/-- connect from client.ts lines 201-208: the timeout argument is defaulted
against the configured req_timeout into a local variable (the first
component), which the source never reads again; the only effect is starting
the relay subscription. The configuration is a readonly field, so connect
cannot alter what a later request reads. -/
def connect (cfg : ClientConfig) (timeoutArg : Option Nat) : Nat × List Action :=
  (timeoutArg.getD cfg.req_timeout, [Action.subscribe])

/-- Settlement of the future connect returns (client.ts lines 205-207): the
executor only ever calls resolve, inside the once ready handler, so the
future resolves exactly when the ready event fires and has no reject path. -/
def connect_settle (readyFired : Bool) : FutureState Unit :=
  if readyFired then .resolved () else .pending

/-- Notifications and routing effects emitted by the inbound handler, in
emission order: the raw event notification, typed-inbox emissions on the
request, response and author buses, the generic message notification, the
error and bounced notifications, and the outbound send issued by the
keepalive auto-reply. -/
inductive Notification where
  | raw (eventId : String)
  | inboxRequest (method : String) (m : Message)
  | inboxResponse (id : String) (m : Message)
  | inboxAuthor (pubkey : String) (m : Message)
  | msg (m : Message)
  | err (e : String)
  | bounced (eventId : String) (e : String)
  | sendMsg (tpl : MessageTemplate) (recipient : String)
deriving DecidableEq

/-- The pong auto-reply of client.ts lines 168-172: a send of the template
with result pong and the request correlation id, addressed to the envelope
sender. Its assertion that the method is ping holds at the only call site. -/
def handler_pong (m : Message) : Notification :=
  Notification.sendMsg { id := some m.id, result := some "pong" } m.sender

/-- The inbound handler of client.ts lines 124-161. Self-authored events are
discarded; otherwise the raw event notification fires and decryption plus
parsing is attempted. The decoded argument is the outcome of that external
step: on failure the catch clause emits one error and one bounced
notification (the error description is already a string here; the source
normalizes it with parse_error first) and nothing else; on success the
message is classified, routed, then emitted on the author bus and as the
generic message notification. -/
def handler (selfPk evPubkey evId : String) (decoded : Except String Message) :
    List Notification :=
  if evPubkey = selfPk then []
  else
    Notification.raw evId ::
    (match decoded with
     | .error e => [Notification.err e, Notification.bounced evId e]
     | .ok m =>
       (if m.type = MsgType.request then
          (if m.method = "ping" then [handler_pong m]
           else [Notification.inboxRequest m.method m])
        else if m.type = MsgType.accept ∨ m.type = MsgType.reject then
          [Notification.inboxResponse m.id m]
        else [])
       ++ [Notification.inboxAuthor m.sender m, Notification.msg m])

/-- Test selecting error notifications. -/
def is_error_note : Notification → Bool
  | .err _ => true
  | _ => false

/-- Test selecting bounced notifications. -/
def is_bounced_note : Notification → Bool
  | .bounced _ _ => true
  | _ => false

/-- Test selecting emissions on any inbox bus (request, response or author). -/
def is_inbox_note : Notification → Bool
  | .inboxRequest _ _ => true
  | .inboxResponse _ _ => true
  | .inboxAuthor _ _ => true
  | _ => false

/-- Test selecting generic message notifications. -/
def is_message_note : Notification → Bool
  | .msg _ => true
  | _ => false

/-- Test selecting emissions on the request bus. -/
def is_request_inbox_note : Notification → Bool
  | .inboxRequest _ _ => true
  | _ => false

theorem pending_fold_late (timeout : Nat) (key : String) :
    ∀ (ds : List Delivery) (s : FutureState Message),
      (s = FutureState.pending ∨ s = FutureState.rejected "timeout") →
      (∀ d ∈ ds, d.msg.id = key → timeout ≤ d.time) →
      (ds.foldl (pending_step timeout key) s = FutureState.pending ∨
       ds.foldl (pending_step timeout key) s = FutureState.rejected "timeout")
  | [], s, hs, _ => by simpa using hs
  | d :: ds, s, hs, h => by
    have hd : d.msg.id = key → timeout ≤ d.time := h d (List.mem_cons_self d ds)
    have htail : ∀ x ∈ ds, x.msg.id = key → timeout ≤ x.time :=
      fun x hx => h x (List.mem_cons_of_mem d hx)
    rw [List.foldl_cons]
    refine pending_fold_late timeout key ds (pending_step timeout key s d) ?_ htail
    rcases hs with rfl | rfl
    · by_cases hm : d.msg.id = key
      · have hle : timeout ≤ d.time := hd hm
        right
        simp [pending_step, hle, hm, settle_reject, settle_resolve]
      · by_cases hle : timeout ≤ d.time
        · right; simp [pending_step, hle, hm, settle_reject, settle_resolve]
        · left; simp [pending_step, hle, hm, settle_reject, settle_resolve]
    · right
      by_cases hm : d.msg.id = key <;> by_cases hle : timeout ≤ d.time <;>
        simp [pending_step, hle, hm, settle_reject, settle_resolve]

theorem run_pending_late (timeout : Nat) (key : String) (ds : List Delivery)
    (h : ∀ d ∈ ds, d.msg.id = key → timeout ≤ d.time) :
    run_pending timeout key ds = FutureState.rejected "timeout" := by
  unfold run_pending
  rcases pending_fold_late timeout key ds .pending (Or.inl rfl) h with h1 | h1 <;>
    rw [h1] <;> rfl

theorem request_run_valid (cfg : ClientConfig) (fresh : String) (msg : MessageTemplate)
    (recipient : String) (ds : List Delivery) (s : String)
    (hmsg : msg.id = some s) (hs : (s == "") = false) :
    request_run cfg fresh msg recipient ds =
      (.settled (run_pending cfg.req_timeout s ds),
       [Action.created { kind := cfg.kind, payload := msg, recipient := recipient },
        Action.register s cfg.req_timeout,
        Action.publish { kind := cfg.kind, payload := msg, recipient := recipient }]) := by
  simp [request_run, create_event, falsy_str, hmsg, hs]

/-- C1: a request whose pending entry sees no matching response emission
strictly before req_timeout milliseconds settles as rejected with the literal
reason timeout; the quantification over ds admits arbitrarily many matching
emissions at or after the deadline, and the outcome is still the same
rejection, so a late response has no effect on the settled future. -/
theorem C1_request_timeout (cfg : ClientConfig) (fresh : String)
    (msg : MessageTemplate) (recipient : String) (ds : List Delivery)
    (hid : falsy_str msg.id = false)
    (h : ∀ d ∈ ds, d.msg.id = msg.id.getD "" → cfg.req_timeout ≤ d.time) :
    (request_run cfg fresh msg recipient ds).1
      = RequestOutcome.settled (FutureState.rejected "timeout") := by
  cases hmsg : msg.id with
  | none => rw [hmsg] at hid; simp [falsy_str] at hid
  | some s =>
    have hs : (s == "") = false := by rw [hmsg] at hid; simpa [falsy_str] using hid
    rw [hmsg] at h
    rw [request_run_valid cfg fresh msg recipient ds s hmsg hs]
    simpa using congrArg RequestOutcome.settled (run_pending_late cfg.req_timeout s ds h)

theorem C1_request_timeout_witness :
    falsy_str (some "abc") = false ∧
    (∀ d ∈ [Delivery.mk 6000 (Message.mk MsgType.accept "abc" "" "peer")],
      d.msg.id = "abc" → 5000 ≤ d.time) ∧
    (request_run (DEFAULT_CONFIG 0) "f" { id := some "abc" } "r"
        [Delivery.mk 6000 (Message.mk MsgType.accept "abc" "" "peer")]).1
      = RequestOutcome.settled (FutureState.rejected "timeout") :=
  ⟨by decide, by decide, C1_request_timeout _ _ _ _ _ (by decide) (by decide)⟩

/-- C2: for every request call on a template with a present id, the action
trace contains the response-bus registration under the template id with the
configured req_timeout at a position strictly before every publish action,
and a publish action does occur. -/
theorem C2_register_before_publish (cfg : ClientConfig) (fresh : String)
    (msg : MessageTemplate) (recipient : String) (ds : List Delivery)
    (hid : falsy_str msg.id = false) :
    ∃ i : Nat, (request_run cfg fresh msg recipient ds).2[i]?
            = some (Action.register (msg.id.getD "") cfg.req_timeout) ∧
      (∃ j : Nat, ∃ ev, (request_run cfg fresh msg recipient ds).2[j]? = some (Action.publish ev)) ∧
      (∀ j : Nat, ∀ ev, (request_run cfg fresh msg recipient ds).2[j]? = some (Action.publish ev)
        → i < j) := by
  cases hmsg : msg.id with
  | none => rw [hmsg] at hid; simp [falsy_str] at hid
  | some s =>
    have hs : (s == "") = false := by rw [hmsg] at hid; simpa [falsy_str] using hid
    rw [request_run_valid cfg fresh msg recipient ds s hmsg hs]
    refine ⟨1, by simp, ⟨2, _, rfl⟩, ?_⟩
    intro j ev hj
    match j with
    | 0 => simp at hj
    | 1 => simp at hj
    | n + 2 => omega

theorem C2_register_before_publish_witness :
    falsy_str (some "abc") = false ∧
    ∃ i : Nat, (request_run (DEFAULT_CONFIG 0) "f" { id := some "abc" } "r" []).2[i]?
            = some (Action.register ((some "abc" : Option String).getD "")
                (DEFAULT_CONFIG 0).req_timeout) ∧
      (∃ j : Nat, ∃ ev, (request_run (DEFAULT_CONFIG 0) "f" { id := some "abc" } "r" []).2[j]?
          = some (Action.publish ev)) ∧
      (∀ j : Nat, ∀ ev, (request_run (DEFAULT_CONFIG 0) "f" { id := some "abc" } "r" []).2[j]?
          = some (Action.publish ev) → i < j) :=
  ⟨by decide, C2_register_before_publish _ _ _ _ _ (by decide)⟩

/-- C5: a request call on a template whose id is absent or empty fails with
the thrown precondition error message, distinct from a timeout-style settled
rejection, and its action trace is empty: no event creation, no registration
and no publication is attempted. -/
theorem C5_missing_id (cfg : ClientConfig) (fresh : String) (msg : MessageTemplate)
    (recipient : String) (ds : List Delivery)
    (hid : falsy_str msg.id = true) :
    request_run cfg fresh msg recipient ds
      = (RequestOutcome.thrown "message id is required", []) := by
  simp [request_run, hid]

theorem C5_missing_id_witness :
    (falsy_str (none : Option String) = true ∧
      request_run (DEFAULT_CONFIG 0) "f" {} "r" []
        = (RequestOutcome.thrown "message id is required", [])) ∧
    (falsy_str (some "") = true ∧
      request_run (DEFAULT_CONFIG 0) "f" { id := some "" } "r" []
        = (RequestOutcome.thrown "message id is required", [])) :=
  ⟨⟨by decide, C5_missing_id _ _ _ _ _ (by decide)⟩,
   ⟨by decide, C5_missing_id _ _ _ _ _ (by decide)⟩⟩

/-- C6: ping resolves true exactly when the response race resolves with a
message whose type is accept; a timeout rejection, a reject-typed response,
or any other settled state yields false. The result type is Bool, so the
embedded ping cannot reject: the catch clause of the source turns every
rejection, including the synchronous throw path of request, into false. -/
theorem C6_ping_accept_iff (cfg : ClientConfig) (fresh recipient : String)
    (ds : List Delivery) (h : fresh ≠ "") :
    (ping_run cfg fresh recipient ds = true ↔
      ∃ m, run_pending cfg.req_timeout fresh ds = FutureState.resolved m ∧
        m.type = MsgType.accept) := by
  have hs : (fresh == "") = false := by simpa using h
  rw [ping_run, request_run_valid cfg fresh _ recipient ds fresh rfl hs]
  cases hr : run_pending cfg.req_timeout fresh ds with
  | pending => simp
  | resolved m => simp
  | rejected r => simp

theorem C6_ping_accept_iff_witness :
    "p1" ≠ "" ∧
    (ping_run (DEFAULT_CONFIG 0) "p1" "peer"
        [Delivery.mk 100 (Message.mk MsgType.accept "p1" "" "peer")] = true ↔
      ∃ m, run_pending (DEFAULT_CONFIG 0).req_timeout "p1"
            [Delivery.mk 100 (Message.mk MsgType.accept "p1" "" "peer")]
          = FutureState.resolved m ∧ m.type = MsgType.accept) :=
  ⟨by decide, C6_ping_accept_iff _ _ _ _ (by decide)⟩

/-- C7: an inbound event from another party whose decryption or parsing
fails yields the trace of exactly the raw event notification, one error
notification and one bounced notification carrying the event id and the
error description; no inbox bus fires and no message notification fires.
The handler is a total function, so nothing escapes the dispatch path. -/
theorem C7_decode_failure_isolated (selfPk evPubkey evId e : String)
    (h : evPubkey ≠ selfPk) :
    handler selfPk evPubkey evId (Except.error e)
        = [Notification.raw evId, Notification.err e, Notification.bounced evId e] ∧
    (handler selfPk evPubkey evId (Except.error e)).countP is_error_note = 1 ∧
    (handler selfPk evPubkey evId (Except.error e)).countP is_bounced_note = 1 ∧
    (handler selfPk evPubkey evId (Except.error e)).countP is_inbox_note = 0 ∧
    (handler selfPk evPubkey evId (Except.error e)).countP is_message_note = 0 := by
  have heq : handler selfPk evPubkey evId (Except.error e)
      = [Notification.raw evId, Notification.err e, Notification.bounced evId e] := by
    simp [handler, h]
  refine ⟨heq, ?_, ?_, ?_, ?_⟩ <;> rw [heq] <;> rfl

theorem C7_decode_failure_isolated_witness :
    ("bob" : String) ≠ "alice" ∧
    handler "alice" "bob" "ev1" (Except.error "bad payload")
        = [Notification.raw "ev1", Notification.err "bad payload",
           Notification.bounced "ev1" "bad payload"] ∧
    (handler "alice" "bob" "ev1" (Except.error "bad payload")).countP is_error_note = 1 ∧
    (handler "alice" "bob" "ev1" (Except.error "bad payload")).countP is_bounced_note = 1 ∧
    (handler "alice" "bob" "ev1" (Except.error "bad payload")).countP is_inbox_note = 0 ∧
    (handler "alice" "bob" "ev1" (Except.error "bad payload")).countP is_message_note = 0 :=
  ⟨by decide, (C7_decode_failure_isolated _ _ _ _ (by decide)).1,
    (C7_decode_failure_isolated _ _ _ _ (by decide)).2.1,
    (C7_decode_failure_isolated _ _ _ _ (by decide)).2.2.1,
    (C7_decode_failure_isolated _ _ _ _ (by decide)).2.2.2.1,
    (C7_decode_failure_isolated _ _ _ _ (by decide)).2.2.2.2⟩

/-- C9: an inbound request-typed message from another party with the reserved
keepalive method produces exactly the raw event notification, an automatic
send of the reply template with result pong and the same correlation id to
the envelope sender, the author-bus emission and the generic message
notification; the request bus never fires, so no application handler runs. -/
theorem C9_keepalive_auto_reply (selfPk evPubkey evId : String) (m : Message)
    (h : evPubkey ≠ selfPk) (ht : m.type = MsgType.request) (hm : m.method = "ping") :
    handler selfPk evPubkey evId (Except.ok m)
        = [Notification.raw evId,
           Notification.sendMsg { id := some m.id, result := some "pong" } m.sender,
           Notification.inboxAuthor m.sender m, Notification.msg m] ∧
    (handler selfPk evPubkey evId (Except.ok m)).countP is_request_inbox_note = 0 := by
  have heq : handler selfPk evPubkey evId (Except.ok m)
      = [Notification.raw evId,
         Notification.sendMsg { id := some m.id, result := some "pong" } m.sender,
         Notification.inboxAuthor m.sender m, Notification.msg m] := by
    simp [handler, handler_pong, h, ht, hm]
  exact ⟨heq, by rw [heq]; rfl⟩

theorem C9_keepalive_auto_reply_witness :
    (("peer" : String) ≠ "self" ∧
      (Message.mk MsgType.request "p1" "ping" "peer").type = MsgType.request ∧
      (Message.mk MsgType.request "p1" "ping" "peer").method = "ping") ∧
    handler "self" "peer" "ev1" (Except.ok (Message.mk MsgType.request "p1" "ping" "peer"))
        = [Notification.raw "ev1",
           Notification.sendMsg { id := some "p1", result := some "pong" } "peer",
           Notification.inboxAuthor "peer" (Message.mk MsgType.request "p1" "ping" "peer"),
           Notification.msg (Message.mk MsgType.request "p1" "ping" "peer")] ∧
    (handler "self" "peer" "ev1"
        (Except.ok (Message.mk MsgType.request "p1" "ping" "peer"))).countP
        is_request_inbox_note = 0 :=
  ⟨⟨by decide, by decide, by decide⟩,
    (C9_keepalive_auto_reply _ _ _ _ (by decide) (by decide) (by decide)).1,
    (C9_keepalive_auto_reply _ _ _ _ (by decide) (by decide) (by decide)).2⟩

/-- C10: create_event writes the generated id into the template exactly when
the id was absent and keeps a present id, including a present empty one,
unchanged; the enveloped payload is the updated template itself, so the id
on the wire is the id the caller observes on the template after the call.
In-place mutation of the caller template is embedded as returning the
updated template. -/
theorem C10_create_event_template_id (cfg : ClientConfig) (fresh : String)
    (msg : MessageTemplate) (recipient : String) :
    (create_event cfg fresh msg recipient).1.id = some (msg.id.getD fresh) ∧
    (create_event cfg fresh msg recipient).1.method = msg.method ∧
    (create_event cfg fresh msg recipient).1.result = msg.result ∧
    (create_event cfg fresh msg recipient).2.payload
      = (create_event cfg fresh msg recipient).1 ∧
    (create_event cfg fresh msg recipient).2.kind = cfg.kind ∧
    (create_event cfg fresh msg recipient).2.recipient = recipient := by
  cases h : msg.id <;> simp [create_event, h]

/-- C3: evaluation of the configuration merge at inputs that refute the
claim. The source merges only the filter field into the defaults and never
reads the top-level override fields, so an override of req_timeout or kind
is silently dropped while a filter override is honored; this contradicts
the stated per-field shallow merge and the doc comment of get_node_config. -/
theorem C3_overrides_dropped :
    (get_node_config 0 { req_timeout := some 1000 }).req_timeout = 5000 ∧
    (get_node_config 0 { req_timeout := some 1000 }).req_timeout ≠ 1000 ∧
    (get_node_config 0 { kind := some 9999 }).kind = 24133 ∧
    (get_node_config 0 { start_delay := some 1 }).start_delay = 2000 ∧
    (get_node_config 0 { since_offset := some 9 }).since_offset = 5 ∧
    (get_node_config 0 { filter := some { since := some 77 } }).filter
      = EventFilter.mk [24133] 77 := by
  refine ⟨rfl, by decide, rfl, rfl, rfl, rfl⟩

/-- C8 counterexample: with the default configuration, connect called with
timeout 1000 only normalizes the argument into an unused local and starts
the subscription; a subsequent request still registers its deadline as the
configured 5000 milliseconds, and no registration with deadline 1000 exists,
refuting that the connect argument is later used as the request deadline. -/
theorem C8_connect_timeout_cex :
    connect (get_node_config 0 {}) (some 1000) = (1000, [Action.subscribe]) ∧
    (request_run (get_node_config 0 {}) "f" { id := some "abc" } "r" []).2
      = [Action.created (SignedEventOut.mk 24133 { id := some "abc" } "r"),
         Action.register "abc" 5000,
         Action.publish (SignedEventOut.mk 24133 { id := some "abc" } "r")] ∧
    Action.register "abc" 1000 ∉
      (request_run (get_node_config 0 {}) "f" { id := some "abc" } "r" []).2 := by
  refine ⟨rfl, rfl, by decide⟩

/-- C8 amended: connect accepts the timeout argument and defaults it against
the configured req_timeout into a local value it never uses again; its only
effect is starting the subscription, its future resolves exactly when the
ready event fires and has no rejection path, and a subsequent request takes
its deadline from the configuration, independent of the argument. -/
theorem C8_connect_timeout_inert (cfg : ClientConfig) (timeoutArg : Option Nat)
    (fresh recipient : String) (msg : MessageTemplate) (ds : List Delivery)
    (s : String) (hmsg : msg.id = some s) (hs : (s == "") = false) :
    (connect cfg timeoutArg).2 = [Action.subscribe] ∧
    (connect cfg timeoutArg).1 = timeoutArg.getD cfg.req_timeout ∧
    (request_run cfg fresh msg recipient ds).2[1]?
        = some (Action.register s cfg.req_timeout) ∧
    (∀ b r, connect_settle b ≠ FutureState.rejected r) ∧
    (∀ b, connect_settle b = FutureState.resolved () ↔ b = true) := by
  refine ⟨rfl, rfl, ?_, ?_, ?_⟩
  · rw [request_run_valid cfg fresh msg recipient ds s hmsg hs]
    rfl
  · intro b r
    cases b <;> simp [connect_settle]
  · intro b
    cases b <;> simp [connect_settle]

theorem C8_connect_timeout_inert_witness :
    (({ id := some "abc" } : MessageTemplate).id = some "abc" ∧
      (("abc" : String) == "") = false) ∧
    (connect (DEFAULT_CONFIG 0) (some 1000)).2 = [Action.subscribe] ∧
    (connect (DEFAULT_CONFIG 0) (some 1000)).1
      = (some 1000 : Option Nat).getD (DEFAULT_CONFIG 0).req_timeout ∧
    (request_run (DEFAULT_CONFIG 0) "f" { id := some "abc" } "r" []).2[1]?
        = some (Action.register "abc" (DEFAULT_CONFIG 0).req_timeout) ∧
    (∀ b r, connect_settle b ≠ FutureState.rejected r) ∧
    (∀ b, connect_settle b = FutureState.resolved () ↔ b = true) :=
  ⟨⟨rfl, by decide⟩,
    (C8_connect_timeout_inert (DEFAULT_CONFIG 0) (some 1000) "f" "r"
      { id := some "abc" } [] "abc" rfl (by decide)).1,
    (C8_connect_timeout_inert (DEFAULT_CONFIG 0) (some 1000) "f" "r"
      { id := some "abc" } [] "abc" rfl (by decide)).2.1,
    (C8_connect_timeout_inert (DEFAULT_CONFIG 0) (some 1000) "f" "r"
      { id := some "abc" } [] "abc" rfl (by decide)).2.2.1,
    (C8_connect_timeout_inert (DEFAULT_CONFIG 0) (some 1000) "f" "r"
      { id := some "abc" } [] "abc" rfl (by decide)).2.2.2.1,
    (C8_connect_timeout_inert (DEFAULT_CONFIG 0) (some 1000) "f" "r"
      { id := some "abc" } [] "abc" rfl (by decide)).2.2.2.2⟩

end NIP46
